import Mathlib

/-!
Verification of the opcua-adapter core of absmach/mg-contrib.

Definitions in the first part embed the Go source directly:
opcua/api browse request validation, and the startup wiring in
cmd/opcua/main.go (subscribeToStoredSubs, subscribeToThingsES and the
main startup sequence).  Definitions in the second part are modelled
from the specification, because the route-map repository, the
subscriber and the event reconciler implementations of this repository
are not among the provided source files (only their callers are).
-/

/-! ## Browse request validation (opcua/api, provided source) -/

/-- Error value standing for apiutil.ErrMissingID, the only error the
browse request validator can return. -/
inductive ApiutilError where
  | ErrMissingID
deriving DecidableEq

/-- Embedding of the Go struct browseReq with its four string fields. -/
structure browseReq where
  ServerURI : String
  Namespace : String
  Identifier : String
  IdentifierType : String
deriving DecidableEq

/-- Embedding of the Go method (req *browseReq) validate: returns
apiutil.ErrMissingID when ServerURI is empty, nil otherwise.  The
validator is a pure check: it performs no network or store access. -/
def browseReq.validate (req : browseReq) : Option ApiutilError :=
  if req.ServerURI = "" then some ApiutilError.ErrMissingID
  else none

/-! ## Startup resume pass (cmd/opcua/main.go, provided source) -/

/-- Embedding of a stored subscription record as read by db.ReadAll and
consumed in subscribeToStoredSubs (only the two fields the loop reads). -/
structure SubscriptionRecord where
  ServerURI : String
  NodeID : String
deriving DecidableEq

/-- Embedding of the part of opcua.Config that subscribeToStoredSubs
mutates and that Subscribe consumes. -/
structure OpcuaConfig where
  ServerURI : String
  NodeID : String
deriving DecidableEq

/-- Value of the single shared cfg variable of subscribeToStoredSubs
after the loop has executed the writes of iterations 0..j: iteration j
overwrites both ServerURI and NodeID with record j.  For j past the end
of the list the base value is returned (no write happened). -/
def cfgAfter (base : OpcuaConfig) (nodes : List SubscriptionRecord) (j : Nat) : OpcuaConfig :=
  match nodes[j]? with
  | some n => { ServerURI := n.ServerURI, NodeID := n.NodeID }
  | none => base

/-- A schedule assigns to the goroutine spawned at loop iteration i the
index of the last loop-iteration write it observes when it reads the
shared cfg variable.  In the Go source the goroutine body reads cfg
after its own spawn (so after write i) and possibly after any later
iteration of the loop, hence i ≤ sched i < nodes.length. -/
def legalSchedule (nodes : List SubscriptionRecord) (sched : Nat → Nat) : Prop :=
  ∀ i, i < nodes.length → i ≤ sched i ∧ sched i < nodes.length

/-- The list of config values actually passed to sub.Subscribe by the N
spawned goroutines, given a schedule: goroutine i reads the shared cfg
variable as of write sched i.  This models the Go closure capturing the
enclosing cfg variable by reference, not a per-iteration copy. -/
def issuedSubscribeArgs (base : OpcuaConfig) (nodes : List SubscriptionRecord)
    (sched : Nat → Nat) : List OpcuaConfig :=
  (List.range nodes.length).map (fun i => cfgAfter base nodes (sched i))

/-- Observable outcome of one run of subscribeToStoredSubs: whether the
read-failure warning was logged, how many Subscribe goroutines were
spawned, which config each Subscribe call received, and whether the
function aborted the process (it never does). -/
structure ResumeRun where
  warnedReadFailure : Bool
  spawned : Nat
  args : List OpcuaConfig
  processAborted : Bool
deriving DecidableEq

/-- Embedding of subscribeToStoredSubs from cmd/opcua/main.go.  The
db.ReadAll result is passed in as an Except value (the Go function
returns an error with no records on failure, per the store contract);
on error the function logs a warning and falls through to an empty
loop, spawning nothing and returning normally.  On success it spawns
one goroutine per record; the config each goroutine hands to Subscribe
is determined by the schedule, because all goroutines close over the
one shared cfg variable that the loop keeps overwriting. -/
def subscribeToStoredSubs (base : OpcuaConfig)
    (readResult : Except String (List SubscriptionRecord)) (sched : Nat → Nat) : ResumeRun :=
  match readResult with
  | Except.error _ => { warnedReadFailure := true, spawned := 0, args := [], processAborted := false }
  | Except.ok nodes =>
      { warnedReadFailure := false, spawned := nodes.length,
        args := issuedSubscribeArgs base nodes sched, processAborted := false }

/-! ## Main startup sequence (cmd/opcua/main.go, provided source) -/

/-- Success or failure of each fallible step of main, in the order the
source performs them: env.Parse of the service and opcua configs,
logger construction, instance-ID generation (only attempted when no ID
was configured), HTTP server config parse, redis route-map connection,
Jaeger provider, message-broker connection, and the event-store
subscriber wiring (subscribeToThingsES). -/
structure MainEnv where
  envParseOk : Bool
  opcEnvParseOk : Bool
  loggerOk : Bool
  instanceIDSet : Bool
  uuidOk : Bool
  httpCfgOk : Bool
  redisOk : Bool
  jaegerOk : Bool
  brokerOk : Bool
  esOk : Bool
deriving DecidableEq

/-- How the process run ends: log.Fatalf (immediate exit), a return
from main with a nonzero exitCode that the deferred
mglog.ExitWithError turns into a process exit, or reaching the serving
state (the errgroup Wait on the HTTP server). -/
inductive MainOutcome where
  | fatal
  | exitCode (code : Nat)
  | running
deriving DecidableEq

/-- External calls whose occurrence the claims talk about. -/
inductive CallEvent where
  | readAll
  | spawnResume
  | subscribeES
  | serveHTTP
deriving DecidableEq

/-- Whether an outcome is a process termination with failure. -/
def MainOutcome.isProcessFatal : MainOutcome → Bool
  | MainOutcome.fatal => true
  | MainOutcome.exitCode c => c != 0
  | MainOutcome.running => false

/-- Embedding of the startup control flow of main in cmd/opcua/main.go,
step by step in source order.  Every failing step before the resume
spawn exits the process (log.Fatalf or exitCode 1 plus return); the
resume pass is spawned with the go statement and main then wires the
event-store consumer, whose failure also sets exitCode 1 and returns.
resumeRuns says whether the scheduler ran the spawned resume goroutine
(and hence its db.ReadAll call) before an early exit; in the running
outcome the live process always schedules it. -/
def mainRun (env : MainEnv) (resumeRuns : Bool) : MainOutcome × List CallEvent :=
  if env.envParseOk = false then (MainOutcome.fatal, [])
  else if env.opcEnvParseOk = false then (MainOutcome.fatal, [])
  else if env.loggerOk = false then (MainOutcome.fatal, [])
  else if env.instanceIDSet = false ∧ env.uuidOk = false then (MainOutcome.exitCode 1, [])
  else if env.httpCfgOk = false then (MainOutcome.exitCode 1, [])
  else if env.redisOk = false then (MainOutcome.exitCode 1, [])
  else if env.jaegerOk = false then (MainOutcome.exitCode 1, [])
  else if env.brokerOk = false then (MainOutcome.exitCode 1, [])
  else if env.esOk = false then
    (MainOutcome.exitCode 1,
      CallEvent.spawnResume ::
        ((if resumeRuns then [CallEvent.readAll] else []) ++ [CallEvent.subscribeES]))
  else
    (MainOutcome.running,
      [CallEvent.spawnResume, CallEvent.readAll, CallEvent.subscribeES, CallEvent.serveHTTP])

/-- Number of db.ReadAll invocations recorded in a trace. -/
def readAllCount (tr : List CallEvent) : Nat :=
  (tr.filter (fun e => decide (e = CallEvent.readAll))).length

/-! ## Route-map store (modelled from the spec) -/

/-- Modelled from the spec: the three entity classes that scope the
route map (the repository implementation behind
opcuaevents.NewRouteMapRepository is not among the provided sources). -/
inductive EntityClass where
  | thing
  | channel
  | connection
deriving DecidableEq

/-- Modelled from the spec: the persistent route-map store, a key/value
mapping from (entityClass, platformID) to protocolID, backed by a
class-scoped key namespace. -/
structure RouteMapStore where
  entries : List (EntityClass × String × String)
deriving DecidableEq

/-- Modelled from the spec: Get(entityClass, platformID) returns the
mapped protocolID, or NotFound (modelled as none) when absent. -/
def RouteMapStore.Get (st : RouteMapStore) (c : EntityClass) (platformID : String) :
    Option String :=
  (st.entries.find? (fun e => decide (e.1 = c ∧ e.2.1 = platformID))).map (fun e => e.2.2)

/-- Modelled from the spec: Save(entityClass, platformID, protocolID)
upserts the mapping, overwriting any prior protocolID for that
platformID within the class. -/
def RouteMapStore.Save (st : RouteMapStore) (c : EntityClass) (platformID protocolID : String) :
    RouteMapStore :=
  ⟨(c, platformID, protocolID) ::
    st.entries.filter (fun e => !decide (e.1 = c ∧ e.2.1 = platformID))⟩

/-- Modelled from the spec: Remove(entityClass, platformID) deletes the
mapping, a no-op when it is absent. -/
def RouteMapStore.Remove (st : RouteMapStore) (c : EntityClass) (platformID : String) :
    RouteMapStore :=
  ⟨st.entries.filter (fun e => !decide (e.1 = c ∧ e.2.1 = platformID))⟩

/-! ## Subscriber lifecycle (modelled from the spec) -/

/-- Key of a subscription: the (serverURI, nodeID) pair. -/
structure SubKey where
  serverURI : String
  nodeID : String
deriving DecidableEq

/-- Modelled from the spec: the error class a failed field-client
session surfaces from Subscribe. -/
inductive SubError where
  | protocol
deriving DecidableEq

/-- Modelled from the spec: the subscriber-owned state, holding the
in-memory LiveSubscriptions and the durable SubscriptionRecords, both
keyed by (serverURI, nodeID).  A key is Active when it has a
LiveSubscription and Absent otherwise; Starting and Stopping are
transient within a single (per-key serialized) call, so a call is
modelled as one atomic step. -/
structure SubscriberState where
  live : List SubKey
  records : List SubKey
deriving DecidableEq

/-- Multiplicity of a key in a key list. -/
def keyCount (k : SubKey) (l : List SubKey) : Nat :=
  (l.filter (fun x => decide (x = k))).length

/-- Modelled from the spec: Subscribe.  If the key is already Active it
returns immediately with no error and no state change; otherwise it
opens the field-client session and monitored item (fieldClientOk), and
on success persists the SubscriptionRecord and transitions the key to
Active (one new LiveSubscription); on failure it returns an error and
the key falls back to Absent with no state change. -/
def SubscriberState.subscribe (st : SubscriberState) (k : SubKey) (fieldClientOk : Bool) :
    Option SubError × SubscriberState :=
  if k ∈ st.live then (none, st)
  else if fieldClientOk then
    (none, ⟨k :: st.live, if k ∈ st.records then st.records else k :: st.records⟩)
  else (some SubError.protocol, st)

/-- Modelled from the spec: Unsubscribe.  On an Active key it cancels
the field-client subscription, removes the SubscriptionRecord and
transitions the key to Absent; on an Absent key it is a no-op that
returns no error. -/
def SubscriberState.unsubscribe (st : SubscriberState) (k : SubKey) :
    Option SubError × SubscriberState :=
  if k ∈ st.live then
    (none, ⟨st.live.filter (fun x => !decide (x = k)),
      st.records.filter (fun x => !decide (x = k))⟩)
  else (none, st)

/-! ## Event reconciler (modelled from the spec) -/

/-- Modelled from the spec: a ConnectionCreated platform event,
referencing the created connection and its thing and channel. -/
structure ConnectionCreatedEvent where
  connID : String
  thingID : String
  chanID : String
deriving DecidableEq

/-- Combined adapter state the reconciler acts on: the route-map store
and the subscriber state. -/
structure AdapterState where
  rm : RouteMapStore
  sub : SubscriberState
deriving DecidableEq

/-- Modelled from the spec: the reconciler action for a
ConnectionCreated event.  The target (serverURI, nodeID) is resolved
from the channel and thing route-map entries; when both resolve, the
connection mapping is saved and Subscribe is called on the target; when
either is missing the event is logged and dropped, leaving the whole
state unchanged. -/
def handleConnectionCreated (st : AdapterState) (ev : ConnectionCreatedEvent)
    (fieldClientOk : Bool) : AdapterState :=
  match st.rm.Get EntityClass.thing ev.thingID, st.rm.Get EntityClass.channel ev.chanID with
  | some nodeID, some serverURI =>
      ⟨st.rm.Save EntityClass.connection ev.connID (serverURI ++ ";" ++ nodeID),
        (st.sub.subscribe ⟨serverURI, nodeID⟩ fieldClientOk).2⟩
  | _, _ => st

/-! ## Concrete inputs used by witnesses and counterexamples -/

/-- Base config before the resume loop runs (only the two mutated
fields are modelled). -/
def resumeBase : OpcuaConfig := ⟨"", ""⟩

/-- First stored subscription record of the resume counterexample. -/
def resumeRec1 : SubscriptionRecord := ⟨"opc.tcp://srv1:4840", "ns=2;s=Temp1"⟩

/-- Second stored subscription record of the resume counterexample. -/
def resumeRec2 : SubscriptionRecord := ⟨"opc.tcp://srv2:4840", "ns=2;s=Temp2"⟩

/-- Schedule in which both resume goroutines run only after the loop
has finished (a legal Go schedule). -/
def lateSched : Nat → Nat := fun _ => 1

/-- Startup environment in which every step succeeds. -/
def envAllOk : MainEnv := ⟨true, true, true, true, true, true, true, true, true, true⟩

/-- Startup environment in which only the redis route-map connection
fails. -/
def envRedisFail : MainEnv := ⟨true, true, true, true, true, true, false, true, true, true⟩

/-- Startup environment in which only the event-store consumer wiring
fails. -/
def envEsFail : MainEnv := ⟨true, true, true, true, true, true, true, true, true, false⟩

/-- Empty subscriber state. -/
def subSt0 : SubscriberState := ⟨[], []⟩

/-- A concrete subscription key. -/
def subKey0 : SubKey := ⟨"opc.tcp://srv:4840", "ns=2;s=Temp1"⟩

/-- Empty adapter state (no route-map entries, no subscriptions). -/
def adapterSt0 : AdapterState := ⟨⟨[]⟩, ⟨[], []⟩⟩

/-- A ConnectionCreated event whose thing and channel mappings do not
exist in adapterSt0. -/
def connEv0 : ConnectionCreatedEvent := ⟨"conn1", "thing1", "chan1"⟩

/-! ## Helper lemmas -/

/-- Helper: a key present in a list is counted at least once. -/
theorem keyCount_pos_of_mem {k : SubKey} {l : List SubKey} (h : k ∈ l) :
    1 ≤ keyCount k l := by
  have hm : k ∈ l.filter (fun x => decide (x = k)) := List.mem_filter.mpr ⟨h, by simp⟩
  exact List.length_pos_of_mem hm

/-- Helper: a key absent from a list is counted zero times. -/
theorem keyCount_eq_zero_of_not_mem {k : SubKey} {l : List SubKey} (h : k ∉ l) :
    keyCount k l = 0 := by
  unfold keyCount
  rw [List.length_eq_zero, List.filter_eq_nil_iff]
  intro a ha
  simp only [decide_eq_true_eq]
  intro hak
  exact h (hak ▸ ha)

/-- Helper: consing a key increments its count. -/
theorem keyCount_cons_self (k : SubKey) (l : List SubKey) :
    keyCount k (k :: l) = keyCount k l + 1 := by
  simp [keyCount, List.filter_cons]

/-! ## Claim theorems -/

/-- Claim C1: browse request validation fails with the missing-ID
validation error exactly when serverURI is the empty string, and a
request with a non-empty serverURI passes validation.  The validator is
a pure check performed on the request alone, so the error is surfaced
before any network call. -/
theorem validate_rejects_empty_serverURI (req : browseReq) :
    (req.validate = some ApiutilError.ErrMissingID ↔ req.ServerURI = "") ∧
    (req.validate = none ↔ req.ServerURI ≠ "") := by
  unfold browseReq.validate
  by_cases h : req.ServerURI = "" <;> simp [h]

/-- Claim C10: validation checks only the ServerURI field.  The result
is always either the missing-ID error or success, it is the error
exactly when ServerURI is empty, and it is invariant under changing the
Namespace, Identifier and IdentifierType fields. -/
theorem validate_depends_only_on_serverURI (req : browseReq) :
    (req.validate = some ApiutilError.ErrMissingID ∨ req.validate = none) ∧
    (req.validate = some ApiutilError.ErrMissingID ↔ req.ServerURI = "") ∧
    ∀ ns ident identType : String,
      browseReq.validate ⟨req.ServerURI, ns, ident, identType⟩ = req.validate := by
  refine ⟨?_, ?_, ?_⟩ <;>
    · unfold browseReq.validate
      by_cases h : req.ServerURI = "" <;> simp [h]

/-- Claim C2 (refuted: the loop body mutates the one cfg variable all
spawned goroutines close over): under the legal schedule in which both
goroutines run after the loop has finished, a resume pass over two
distinct stored records spawns exactly two Subscribe attempts, but both
attempts carry the second record's (serverURI, nodeID); the first
record's values are passed to no attempt. -/
theorem subscribeToStoredSubs_shared_cfg_capture :
    legalSchedule [resumeRec1, resumeRec2] lateSched ∧
    subscribeToStoredSubs resumeBase (Except.ok [resumeRec1, resumeRec2]) lateSched =
      ⟨false, 2,
        [⟨"opc.tcp://srv2:4840", "ns=2;s=Temp2"⟩, ⟨"opc.tcp://srv2:4840", "ns=2;s=Temp2"⟩],
        false⟩ := by
  constructor
  · intro i hi
    simp only [lateSched, List.length_cons, List.length_nil] at *
    omega
  · rfl

/-- Claim C3: when the startup read of the subscription store fails,
subscribeToStoredSubs logs one warning, issues zero Subscribe attempts,
and returns without aborting the process; moreover the startup outcome
of main never depends on the resume pass at all. -/
theorem readFailure_warns_and_continues :
    (∀ (base : OpcuaConfig) (e : String) (sched : Nat → Nat),
      subscribeToStoredSubs base (Except.error e) sched =
        ⟨true, 0, [], false⟩) ∧
    ∀ (env : MainEnv) (b1 b2 : Bool), (mainRun env b1).1 = (mainRun env b2).1 := by
  constructor
  · intro base e sched
    rfl
  · intro env b1 b2
    obtain ⟨e1, e2, e3, e4, e5, e6, e7, e8, e9, e10⟩ := env
    revert b1 b2 e1 e2 e3 e4 e5 e6 e7 e8 e9 e10
    decide

/-- Counterexample to claim C4: in the startup environment in which
only the event-store consumer wiring fails, main returns with exitCode
1 and the deferred exit handler terminates the process — the wiring
error is process-fatal, contrary to the claim. -/
theorem es_wiring_failure_is_fatal_cex :
    envEsFail.esOk = false ∧
    (mainRun envEsFail true).1 = MainOutcome.exitCode 1 ∧
    MainOutcome.isProcessFatal (mainRun envEsFail true).1 = true := by
  decide

/-- Claim C4 as amended: when every startup step before the event-store
wiring succeeds and the event-store consumer wiring fails, main exits
the process with code 1 (the failure is process-fatal, logged and then
escalated through the deferred exit handler). -/
theorem es_wiring_failure_exits_with_code_one :
    ∀ (env : MainEnv) (b : Bool),
      (env.envParseOk = true ∧ env.opcEnvParseOk = true ∧ env.loggerOk = true ∧
        (env.instanceIDSet = true ∨ env.uuidOk = true) ∧ env.httpCfgOk = true ∧
        env.redisOk = true ∧ env.jaegerOk = true ∧ env.brokerOk = true) →
      env.esOk = false →
      (mainRun env b).1 = MainOutcome.exitCode 1 := by
  intro env b
  obtain ⟨e1, e2, e3, e4, e5, e6, e7, e8, e9, e10⟩ := env
  revert b e1 e2 e3 e4 e5 e6 e7 e8 e9 e10
  decide

/-- Witness for the amended claim C4: the concrete environment in which
exactly the event-store wiring fails satisfies the hypotheses, and
there main exits with code 1. -/
theorem es_wiring_failure_exits_with_code_one_witness :
    (envEsFail.envParseOk = true ∧ envEsFail.opcEnvParseOk = true ∧
      envEsFail.loggerOk = true ∧
      (envEsFail.instanceIDSet = true ∨ envEsFail.uuidOk = true) ∧
      envEsFail.httpCfgOk = true ∧ envEsFail.redisOk = true ∧
      envEsFail.jaegerOk = true ∧ envEsFail.brokerOk = true) ∧
    envEsFail.esOk = false ∧
    (mainRun envEsFail true).1 = MainOutcome.exitCode 1 :=
  ⟨by decide, by decide,
    es_wiring_failure_exits_with_code_one envEsFail true (by decide) (by decide)⟩

/-- Counterexample to claim C5: in the execution in which the redis
route-map connection fails, startup aborts before the resume pass is
spawned and db.ReadAll is invoked zero times — not exactly once. -/
theorem readAll_skipped_on_aborted_startup_cex :
    (mainRun envRedisFail true).1 = MainOutcome.exitCode 1 ∧
    readAllCount (mainRun envRedisFail true).2 = 0 ∧
    readAllCount (mainRun envRedisFail true).2 ≠ 1 := by
  decide

/-- Claim C5 as amended: in every execution db.ReadAll is invoked at
most once (in particular never again after the startup resume pass),
and in every execution whose startup completes (reaching the serving
state) it is invoked exactly once; executions aborted during startup
may not reach it. -/
theorem readAll_at_most_once_and_once_when_running :
    ∀ (env : MainEnv) (b : Bool),
      readAllCount (mainRun env b).2 ≤ 1 ∧
      ((mainRun env b).1 = MainOutcome.running →
        readAllCount (mainRun env b).2 = 1) := by
  intro env b
  obtain ⟨e1, e2, e3, e4, e5, e6, e7, e8, e9, e10⟩ := env
  revert b e1 e2 e3 e4 e5 e6 e7 e8 e9 e10
  decide

/-- Witness for the amended claim C5: the all-steps-succeed environment
reaches the serving state and db.ReadAll is counted exactly once. -/
theorem readAll_at_most_once_and_once_when_running_witness :
    (mainRun envAllOk true).1 = MainOutcome.running ∧
    readAllCount (mainRun envAllOk true).2 = 1 :=
  ⟨by decide,
    (readAll_at_most_once_and_once_when_running envAllOk true).2 (by decide)⟩

/-- Claim C6: for every entity class and every platformID/protocolID
pair, Save followed by Get on the same (entityClass, platformID)
returns the saved protocolID, and Remove followed by Get on the same
key returns NotFound (modelled as none). -/
theorem routeMap_save_get_remove_get (st : RouteMapStore) (c : EntityClass)
    (platformID protocolID : String) :
    (st.Save c platformID protocolID).Get c platformID = some protocolID ∧
    (st.Remove c platformID).Get c platformID = none := by
  constructor
  · simp [RouteMapStore.Save, RouteMapStore.Get, List.find?_cons]
  · have h : List.find? (fun e => decide (e.1 = c ∧ e.2.1 = platformID))
        (st.entries.filter (fun e => !decide (e.1 = c ∧ e.2.1 = platformID))) = none := by
      rw [List.find?_eq_none]
      intro x hx
      have hx2 := (List.mem_filter.mp hx).2
      simp only [Bool.not_eq_true'] at hx2
      simp [hx2]
    simp only [RouteMapStore.Remove, RouteMapStore.Get, h]
    rfl

/-- Claim C7: Subscribe is idempotent.  From any state in which the key
occurs at most once among the live subscriptions and at most once among
the persisted records, two successive successful Subscribe calls on the
same key leave exactly one LiveSubscription and at most one
SubscriptionRecord for it, and the second call (on the then-Active key)
returns no error and changes nothing. -/
theorem subscribe_idempotent (st : SubscriberState) (k : SubKey)
    (hlive : keyCount k st.live ≤ 1) (hrec : keyCount k st.records ≤ 1) :
    ((st.subscribe k true).2.subscribe k true).1 = none ∧
    ((st.subscribe k true).2.subscribe k true).2 = (st.subscribe k true).2 ∧
    keyCount k (st.subscribe k true).2.live = 1 ∧
    keyCount k (st.subscribe k true).2.records ≤ 1 := by
  by_cases hk : k ∈ st.live
  · have h1 : st.subscribe k true = (none, st) := by
      simp [SubscriberState.subscribe, hk]
    have hcnt : keyCount k st.live = 1 :=
      le_antisymm hlive (keyCount_pos_of_mem hk)
    rw [h1]
    exact ⟨by simp [SubscriberState.subscribe, hk], by simp [SubscriberState.subscribe, hk],
      hcnt, hrec⟩
  · have hrec2 : keyCount k (if k ∈ st.records then st.records else k :: st.records) ≤ 1 := by
      by_cases hr : k ∈ st.records
      · simpa [hr] using hrec
      · simp only [hr, if_false]
        rw [keyCount_cons_self, keyCount_eq_zero_of_not_mem hr]
    have h1 : st.subscribe k true =
        (none, ⟨k :: st.live, if k ∈ st.records then st.records else k :: st.records⟩) := by
      simp [SubscriberState.subscribe, hk]
    have h2 : (SubscriberState.mk (k :: st.live)
          (if k ∈ st.records then st.records else k :: st.records)).subscribe k true =
        (none, SubscriberState.mk (k :: st.live)
          (if k ∈ st.records then st.records else k :: st.records)) := by
      have hm : k ∈ (SubscriberState.mk (k :: st.live)
          (if k ∈ st.records then st.records else k :: st.records)).live :=
        List.mem_cons_self k st.live
      simp [SubscriberState.subscribe, hm]
    refine ⟨?_, ?_, ?_, ?_⟩
    · rw [h1]
      exact congrArg Prod.fst h2
    · rw [h1]
      exact congrArg Prod.snd h2
    · rw [h1]
      show keyCount k (k :: st.live) = 1
      rw [keyCount_cons_self, keyCount_eq_zero_of_not_mem hk]
    · rw [h1]
      exact hrec2

/-- Witness for claim C7: from the empty subscriber state and a
concrete key, the hypotheses hold and two successive Subscribe calls
leave exactly one LiveSubscription and at most one record, the second
call being an errorless no-op. -/
theorem subscribe_idempotent_witness :
    keyCount subKey0 subSt0.live ≤ 1 ∧
    keyCount subKey0 subSt0.records ≤ 1 ∧
    (((subSt0.subscribe subKey0 true).2.subscribe subKey0 true).1 = none ∧
      ((subSt0.subscribe subKey0 true).2.subscribe subKey0 true).2 =
        (subSt0.subscribe subKey0 true).2 ∧
      keyCount subKey0 (subSt0.subscribe subKey0 true).2.live = 1 ∧
      keyCount subKey0 (subSt0.subscribe subKey0 true).2.records ≤ 1) :=
  ⟨by decide, by decide, subscribe_idempotent subSt0 subKey0 (by decide) (by decide)⟩

/-- Claim C8: Unsubscribe on a key whose subscription state is Absent
(no LiveSubscription for it) is a no-op returning no error and leaving
the whole subscriber state unchanged. -/
theorem unsubscribe_absent_noop (st : SubscriberState) (k : SubKey)
    (h : k ∉ st.live) :
    st.unsubscribe k = (none, st) := by
  simp [SubscriberState.unsubscribe, h]

/-- Witness for claim C8: the concrete key is Absent in the empty
subscriber state, and Unsubscribe there returns no error and the
unchanged state. -/
theorem unsubscribe_absent_noop_witness :
    subKey0 ∉ subSt0.live ∧ subSt0.unsubscribe subKey0 = (none, subSt0) :=
  ⟨by decide, unsubscribe_absent_noop subSt0 subKey0 (by decide)⟩

/-- Claim C9: a ConnectionCreated event whose referenced thing or
channel route-map entry is missing is dropped: the reconciler step is a
total function (no crash) and returns the state unchanged — no partial
connection mapping and no subscription is created. -/
theorem connectionCreated_unresolvable_noop (st : AdapterState)
    (ev : ConnectionCreatedEvent) (fieldClientOk : Bool)
    (h : st.rm.Get EntityClass.thing ev.thingID = none ∨
      st.rm.Get EntityClass.channel ev.chanID = none) :
    handleConnectionCreated st ev fieldClientOk = st := by
  unfold handleConnectionCreated
  split
  · rename_i nodeID serverURI hthing hchan
    rcases h with h | h <;> simp_all
  · rfl

/-- Witness for claim C9: in the empty adapter state neither the thing
nor the channel mapping of the concrete event exists, and handling the
event leaves the state unchanged. -/
theorem connectionCreated_unresolvable_noop_witness :
    (adapterSt0.rm.Get EntityClass.thing connEv0.thingID = none ∨
      adapterSt0.rm.Get EntityClass.channel connEv0.chanID = none) ∧
    handleConnectionCreated adapterSt0 connEv0 true = adapterSt0 :=
  ⟨by decide, connectionCreated_unresolvable_noop adapterSt0 connEv0 true (by decide)⟩
